import Mathlib

/-!
Shallow embedding of the pic-dr repository (src/db.py and src/dr.py):
a SQLite-backed store for dimensionality-reduction experiment configs and
projected points, plus the DR runner with its algorithm fallback chains.

Python dictionaries are modelled as association lists `List (String × Value)`
whose key order is the dict's insertion order; a well-formed mapping has
no duplicate keys (`(·.map Prod.fst).Nodup`).  SQLite tables are modelled
as Lean lists of row structures; floats appearing in rows (coordinates,
runtimes) are modelled as rationals, since every float the CLI produces is
a decimal literal.  Fallible operations return `Except`; the connection
helper `conn()` of db.py (commit on success, implicit rollback by closing
without commit on failure) is modelled by explicit commit/rollback in
`save_points`.
-/

/-- Scalar parameter values produced by `_parse_kv` in src/dr.py
(JSON scalars: numbers, booleans, strings).  Floats are modelled as
rationals. -/
inductive Value where
  | int (n : Int)
  | flt (q : ℚ)
  | str (s : String)
  | bool (b : Bool)
deriving DecidableEq

/-- A Python dict of parameters, in insertion order. -/
abbrev ParamList := List (String × Value)

/-- Key comparison used by `json.dumps(params, sort_keys=True)`
(src/db.py line 131): entries are emitted in ascending key order.
Python compares strings lexicographically by code point, modelled here
as the lexicographic order on the character lists of the keys. -/
def keyLE (a b : String × Value) : Prop := a.1.data ≤ b.1.data

/-- Strict version of `keyLE`, used to show canonical forms are unique. -/
def keyLT (a b : String × Value) : Prop := a.1.data < b.1.data

instance : DecidableRel keyLE := fun a b => inferInstanceAs (Decidable (a.1.data ≤ b.1.data))

instance : DecidableRel keyLT := fun a b => inferInstanceAs (Decidable (a.1.data < b.1.data))

instance : IsTotal (String × Value) keyLE := ⟨fun a b => le_total a.1.data b.1.data⟩

instance : IsTrans (String × Value) keyLE := ⟨fun _ _ _ h1 h2 => le_trans h1 h2⟩

instance : IsTrans (String × Value) keyLT := ⟨fun _ _ _ h1 h2 => lt_trans h1 h2⟩

instance : IsAntisymm (String × Value) keyLT :=
  ⟨fun _ _ h1 h2 => absurd h1 (lt_asymm h2)⟩

/-- The stable key ordering applied by `json.dumps(..., sort_keys=True)`
before serialization (src/db.py line 131). -/
def canonicalize (p : ParamList) : ParamList := List.insertionSort keyLE p

/-- JSON rendering of a scalar.  The exact decimal formatting of floats is
abstracted (rationals are printed as num/den); only determinism of the
rendering matters for byte-identity of encodings. -/
def renderValue : Value → String
  | .int n => toString n
  | .flt q => toString q.num ++ "/" ++ toString q.den
  | .str s => "\"" ++ s ++ "\""
  | .bool b => if b then "true" else "false"

/-- One `"key": value` item of the JSON object. -/
def renderPair (kv : String × Value) : String :=
  "\"" ++ kv.1 ++ "\": " ++ renderValue kv.2

/-- Model of `json.dumps(params, sort_keys=True)` (src/db.py line 131):
entries sorted by key, rendered with the default separators. -/
def encodeParams (p : ParamList) : String :=
  "\x7b" ++ String.intercalate ", " ((canonicalize p).map renderPair) ++ "\x7d"

/-- One row of the `embeddings` table (src/db.py lines 45-49):
`filename` is the primary key, the embedding blob is a float vector. -/
structure EmbRow where
  filename : String
  artist : String
  embedding : List ℚ
deriving DecidableEq

/-- One row of the `configs` table (src/db.py lines 60-68).  `params_json`
holds the canonical serialization produced by `upsert_config`;
`created_at` defaults to the insertion time. -/
structure ConfigRow where
  config_id : Nat
  method : String
  subset_strategy : String
  subset_size : Nat
  params_json : String
  runtime : ℚ
  created_at : Nat
deriving DecidableEq

/-- One row of the `projection_points` table (src/db.py lines 71-81), with
foreign keys `filename → embeddings` and `config_id → configs`, both
ON DELETE CASCADE. -/
structure PointRow where
  id : Nat
  filename : String
  artist : String
  config_id : Nat
  x : ℚ
  y : ℚ
deriving DecidableEq

/-- The persistent state of art.sqlite (the `artists` table is read-only
auxiliary data never touched by the operations under proof and is
omitted).  `now` models the current value of `datetime(\x27now\x27)`. -/
structure Store where
  embeddings : List EmbRow
  configs : List ConfigRow
  points : List PointRow
  now : Nat
deriving DecidableEq

/-- Errors surfaced by the db layer, named after the Python exceptions
raised by src/db.py: `ValueError` (unknown strategy, numpy vstack),
`sqlite3.OperationalError`, `sqlite3.IntegrityError`, `KeyError`. -/
inductive DbErr where
  | valueError (msg : String)
  | operationalError (msg : String)
  | integrityError (msg : String)
  | keyError (msg : String)
deriving DecidableEq

/-- SQLite rowid assignment for an INTEGER PRIMARY KEY column with no
explicit value: one more than the largest rowid in the table (1 on an
empty table). -/
def nextConfigId (s : Store) : Nat :=
  (s.configs.map (fun r => r.config_id)).foldr max 0 + 1

/-- Rowid assignment for `projection_points.id`, as for `nextConfigId`. -/
def nextPointId (s : Store) : Nat :=
  (s.points.map (fun r => r.id)).foldr max 0 + 1

/-- The rows of `embeddings` with the same artist as `r` and a strictly
smaller filename: `ROW_NUMBER() OVER (PARTITION BY artist ORDER BY
filename)` assigns `r` the rank `1 +` the number of such rows (filenames
are unique, being the primary key). -/
def sameArtistBefore (l : List EmbRow) (r : EmbRow) : List EmbRow :=
  l.filter (fun t => decide (t.artist = r.artist ∧ t.filename.data < r.filename.data))

/-- The window value `rn` of row `r` in the `ranked` CTE of
`fetch_subset` (src/db.py lines 100-106). -/
def rnOf (l : List EmbRow) (r : EmbRow) : Nat :=
  1 + (sameArtistBefore l r).length

/-- Row ordering produced by the window sort of the `ranked` CTE:
by artist, then by filename. -/
def artistFileLE (a b : EmbRow) : Prop :=
  a.artist.data < b.artist.data ∨ (a.artist = b.artist ∧ a.filename.data ≤ b.filename.data)

instance : DecidableRel artistFileLE := fun a b =>
  inferInstanceAs
    (Decidable (a.artist.data < b.artist.data ∨ (a.artist = b.artist ∧ a.filename.data ≤ b.filename.data)))

/-- The rows delivered by `SELECT * FROM ranked WHERE rn <= 5`
(src/db.py line 106): the table sorted by (artist, filename) with rows of
per-artist rank above 5 dropped. -/
def rankedRows (s : Store) : List EmbRow :=
  (List.insertionSort artistFileLE s.embeddings).filter
    (fun r => decide (rnOf s.embeddings r ≤ 5))

/-- `np.vstack` on the fetched rows (src/db.py line 119): fails with
`ValueError` on an empty row set, otherwise passes the rows through. -/
def vstackRows (rows : List EmbRow) : Except DbErr (List EmbRow) :=
  if rows.isEmpty then
    Except.error (DbErr.valueError "need at least one array to concatenate")
  else Except.ok rows

/-- `db.fetch_subset(strategy, size, rng_state)` (src/db.py lines 90-121).
`ord` is the oracle for the nondeterministic `ORDER BY random()` row
ordering (a permutation of the table).  When a seed is supplied the code
first runs `SELECT random(?)`, but SQLite\x27s built-in `random()` takes no
arguments, so that statement raises
`sqlite3.OperationalError: wrong number of arguments to function random()`
before any row is read. -/
def fetch_subset (s : Store) (strategy : String) (size : Nat)
    (rngState : Option Value) (ord : List EmbRow) : Except DbErr (List EmbRow) :=
  if strategy = "artist_first5" then
    vstackRows ((rankedRows s).take size)
  else if strategy = "random" then
    match rngState with
    | some _ =>
        Except.error (DbErr.operationalError "wrong number of arguments to function random()")
    | none => vstackRows (ord.take size)
  else
    Except.error (DbErr.valueError ("Unknown subset strategy: " ++ strategy))

/-- `db.upsert_config(method, subset_strategy, subset_size, params,
runtime, config_id)` (src/db.py lines 124-151).  With `config_id = none`
a fresh row is INSERTed and its generated id returned.  With an explicit
id the code runs `REPLACE INTO configs`: an existing row with that
primary key is deleted first, and — `PRAGMA foreign_keys = ON` being set
by `conn()` — that delete fires the ON DELETE CASCADE of
`projection_points`, purging every point of that config.  The new row
omits `created_at`, so it takes the DEFAULT `datetime(\x27now\x27)`. -/
def upsert_config (s : Store) (method strategy : String) (size : Nat)
    (params : ParamList) (runtime : ℚ) (configId : Option Nat) : Store × Nat :=
  let pj := encodeParams params
  match configId with
  | none =>
      let cid := nextConfigId s
      ({ s with configs := s.configs ++ [⟨cid, method, strategy, size, pj, runtime, s.now⟩] }, cid)
  | some cid =>
      let hadConflict := s.configs.any (fun r => r.config_id == cid)
      ({ s with
          configs := s.configs.filter (fun r => !(r.config_id == cid)) ++
            [⟨cid, method, strategy, size, pj, runtime, s.now⟩],
          points := if hadConflict then s.points.filter (fun p => !(p.config_id == cid))
            else s.points }, cid)

/-- A `(filename, artist, x, y)` tuple passed to `save_points`. -/
abbrev PtTuple := String × String × ℚ × ℚ

/-- Whether some embedding row carries this filename (the FOREIGN KEY
check on `projection_points.filename`). -/
def fileKnown (s : Store) (fn : String) : Bool :=
  s.embeddings.any (fun e => e.filename == fn)

/-- Whether some config row carries this id (the FOREIGN KEY check on
`projection_points.config_id`). -/
def configKnown (s : Store) (cid : Nat) : Bool :=
  s.configs.any (fun c => c.config_id == cid)

/-- One INSERT of the `executemany` in `save_points` (src/db.py lines
160-163): with foreign keys ON, a tuple whose filename or config id is
unknown raises `sqlite3.IntegrityError`. -/
def insert_point (cur : Store) (cid : Nat) (t : PtTuple) : Except DbErr Store :=
  if fileKnown cur t.1 && configKnown cur cid then
    Except.ok { cur with
      points := cur.points ++ [⟨nextPointId cur, t.1, t.2.1, cid, t.2.2.1, t.2.2.2⟩] }
  else
    Except.error (DbErr.integrityError "FOREIGN KEY constraint failed")

/-- The `executemany` loop: inserts tuples one by one into the open
transaction, stopping at the first failure. -/
def save_points_go (cid : Nat) : Store → List PtTuple → Store × Option DbErr
  | cur, [] => (cur, none)
  | cur, t :: ts =>
      match insert_point cur cid t with
      | Except.ok next => save_points_go cid next ts
      | Except.error e => (cur, some e)

/-- `db.save_points(config_id, points)` (src/db.py lines 154-163) under
the `conn()` contract (src/db.py lines 29-38): the statements run in one
transaction; on success the connection commits, on an exception the
commit is skipped and closing the connection discards the partial
transaction, restoring the original state. -/
def save_points (s : Store) (cid : Nat) (pts : List PtTuple) : Store × Option DbErr :=
  match save_points_go cid s pts with
  | (s2, none) => (s2, none)
  | (_, some e) => (s, some e)

/-- The joined payload returned by `load_config_blob`. -/
structure Payload where
  config : ConfigRow
  points : List PointRow
deriving DecidableEq

/-- `db.load_config_blob(config_id)` (src/db.py lines 166-183): the config
row at that id (raising `KeyError` if absent) joined with all its
points. -/
def load_config_blob (s : Store) (cid : Nat) : Except DbErr Payload :=
  match s.configs.find? (fun r => r.config_id == cid) with
  | none => Except.error (DbErr.keyError ("config_id " ++ toString cid ++ " not found"))
  | some cfg =>
      Except.ok ⟨cfg, s.points.filter (fun p => p.config_id == cid)⟩

/-- The input matrix handed to an algorithm (rows of embedding vectors). -/
abbrev MatIn := List (List ℚ)

/-- The projected output: one 2-D point per input row.  The main flow
unpacks each output row as `(x, y)` (src/dr.py line 537). -/
abbrev MatOut := List (ℚ × ℚ)

/-- Errors raised by an algorithm wrapper in src/dr.py.  `importError`
models a raised `ImportError` (the AlgorithmUnavailableError of the
spec); `causes` is the ordered list of underlying cause strings
interpolated into its message.  `runtimeError` models any other
exception propagating out of a backend. -/
inductive AlgErr where
  | importError (msg : String) (causes : List String)
  | runtimeError (msg : String)
deriving DecidableEq

/-- Python `str(e)` of a raised exception: its message. -/
def algErrStr : AlgErr → String
  | .importError m _ => m
  | .runtimeError m => m

/-- An external fit-transform backend: may fail with an exception
message. -/
abbrev Backend := MatIn → ParamList → Except String MatOut

/-- The set of installed external DR packages.  `Except.error msg` means
an import of the package raises `ImportError(msg)`; `Except.ok f` means the
package is installed and behaves as backend `f`. -/
structure Env where
  umapPkg : Except String Backend
  openTsnePkg : Except String Backend
  sklearnTsnePkg : Except String Backend
  tsnePsoPkg : Except String Backend

/-- Python `k in cfg`. -/
def hasParam (cfg : ParamList) (k : String) : Bool :=
  (cfg.find? (fun kv => kv.1 == k)).isSome

/-- Python `cfg.get(k)` / `cfg[k]` on a dict with unique keys. -/
def lookupParam (cfg : ParamList) (k : String) : Option Value :=
  (cfg.find? (fun kv => kv.1 == k)).map (fun kv => kv.2)

/-- Python `if k not in cfg: cfg[k] = v` — a fresh key is appended in
insertion order. -/
def setDefault (cfg : ParamList) (k : String) (v : Value) : ParamList :=
  if hasParam cfg k then cfg else cfg ++ [(k, v)]

/-- Applying a defaults table in its declaration order (the
`for key, value in defaults.items()` loops of src/dr.py). -/
def applyDefaults (defaults : ParamList) (cfg : ParamList) : ParamList :=
  defaults.foldl (fun c kv => setDefault c kv.1 kv.2) cfg

/-- `updated[new] = updated.pop(old)` guarded by `old in updated and new
not in updated`: the old key is removed and the new key appended. -/
def renameParam (cfg : ParamList) (old new : String) : ParamList :=
  match lookupParam cfg old with
  | none => cfg
  | some v =>
      if hasParam cfg new then cfg
      else cfg.filter (fun kv => !(kv.1 == old)) ++ [(new, v)]

/-- `_handle_deprecated_params` (src/dr.py lines 502-515):
`force_all_finite → ensure_all_finite`, then `n_iter → max_iter`, each
only when the replacement key is absent. -/
def handleDeprecatedParams (cfg : ParamList) : ParamList :=
  renameParam (renameParam cfg "force_all_finite" "ensure_all_finite") "n_iter" "max_iter"

/-- The message of the `ImportError` raised by the `umap` wrapper when
the package cannot be imported (src/dr.py line 48). -/
def umapMissingMsg : String :=
  "UMAP package is not installed. Please install it with: pip install umap-learn"

/-- The `umap` wrapper (src/dr.py lines 36-48): default `n_components=2`
on the local kwargs copy, deprecated-parameter renaming, then the
backend; an unavailable package raises `ImportError` with no underlying
causes. -/
def umapAlgo (env : Env) (X : MatIn) (cfg : ParamList) : Except AlgErr MatOut :=
  match env.umapPkg with
  | Except.error _ => Except.error (AlgErr.importError umapMissingMsg [])
  | Except.ok f =>
      let cfg2 := handleDeprecatedParams (setDefault cfg "n_components" (Value.int 2))
      match f X cfg2 with
      | Except.ok Y => Except.ok Y
      | Except.error m => Except.error (AlgErr.runtimeError m)

/-- The `tsne` wrapper (src/dr.py lines 50-76): openTSNE primary; on
`ImportError` fall back to sklearn TSNE.  If sklearn is also missing the
terminal `ImportError` carries no underlying causes; if sklearn is
present but fails, a generic exception wraps the single cause. -/
def tsneAlgo (env : Env) (X : MatIn) (cfg : ParamList) : Except AlgErr MatOut :=
  match env.openTsnePkg with
  | Except.ok f =>
      let cfg2 := handleDeprecatedParams (setDefault cfg "n_components" (Value.int 2))
      match f X cfg2 with
      | Except.ok Y => Except.ok Y
      | Except.error m => Except.error (AlgErr.runtimeError m)
  | Except.error _ =>
      match env.sklearnTsnePkg with
      | Except.error _ =>
          Except.error (AlgErr.importError
            "Neither openTSNE nor sklearn\x27s TSNE are installed. Please install one of them." [])
      | Except.ok g =>
          let cfg2 := handleDeprecatedParams (setDefault cfg "n_components" (Value.int 2))
          match g X cfg2 with
          | Except.ok Y => Except.ok Y
          | Except.error m =>
              Except.error (AlgErr.runtimeError ("Error using sklearn\x27s TSNE: " ++ m))

/-- The defaults table of the `tsnepso` wrapper (src/dr.py lines
211-225). -/
def tsnepsoDefaults : ParamList :=
  [("n_components", Value.int 2), ("perplexity", Value.int 30),
   ("n_iter", Value.int 500), ("n_particles", Value.int 10),
   ("inertia_weight", Value.flt (7 / 10)), ("learning_rate", Value.int 200),
   ("h", Value.flt (1 / 10 ^ 20)), ("f", Value.flt (1 / 10 ^ 21)),
   ("use_hybrid", Value.bool true), ("dynamic_weight_adaptation", Value.bool true),
   ("parameter_optimization", Value.bool true), ("small_dataset_handling", Value.bool true),
   ("numerical_robustness", Value.bool true)]

/-- The parameter keys forwarded to the sklearn TSNE fallback of
`tsnepso` (src/dr.py line 242). -/
def tsnepsoSklearnKeys : List String :=
  ["n_components", "perplexity", "learning_rate", "n_iter"]

/-- The message of the terminal `ImportError` of `tsnepso` (src/dr.py
line 245), interpolating `str(e)` of the failed UMAP fallback and
`str(e2)` of the failed sklearn fallback. -/
def tsnepsoFailMsg (cause1 cause2 : String) : String :=
  "TSNE-PSO package is not installed and fallbacks failed: " ++ cause1 ++ ", " ++
    cause2 ++ ". Please install TSNE-PSO with: pip install tsne-pso"

/-- The sklearn TSNE attempt of the tsnepso fallback chain (src/dr.py
lines 240-243): import sklearn (an unavailable package raises
`ImportError` with its message), filter the parameters to the keys
sklearn TSNE accepts, and fit; the `Except.error` value is `str(e2)` —
either the failed import message or the exception the backend raised. -/
def tsnepsoSklearnAttempt (env : Env) (X : MatIn) (cfg : ParamList) : Except String MatOut :=
  match env.sklearnTsnePkg with
  | Except.error m2 => Except.error m2
  | Except.ok g => g X (cfg.filter (fun kv => tsnepsoSklearnKeys.contains kv.1))

/-- The `tsnepso` wrapper (src/dr.py lines 206-245): tsne_pso primary; on
`ImportError` fall back to the `umap` wrapper, then to sklearn TSNE; the
terminal `ImportError` carries the two fallback causes in order (the
primary\x27s own failed import is not among them). -/
def tsnepsoAlgo (env : Env) (X : MatIn) (cfg : ParamList) : Except AlgErr MatOut :=
  match env.tsnePsoPkg with
  | Except.ok f =>
      let cfg2 := applyDefaults tsnepsoDefaults cfg
      match f X cfg2 with
      | Except.ok Y => Except.ok Y
      | Except.error m => Except.error (AlgErr.runtimeError m)
  | Except.error _ =>
      match umapAlgo env X cfg with
      | Except.ok Y => Except.ok Y
      | Except.error e =>
          match tsnepsoSklearnAttempt env X cfg with
          | Except.ok Y => Except.ok Y
          | Except.error m2 =>
              Except.error (AlgErr.importError (tsnepsoFailMsg (algErrStr e) m2)
                [algErrStr e, m2])

/-- The `ALGOS` registry (src/dr.py lines 335-345), restricted to the
methods the claims exercise; the remaining wrappers follow the same
shape and are not needed by any claim. -/
def ALGOS : String → Option (Env → MatIn → ParamList → Except AlgErr MatOut)
  | "umap" => some umapAlgo
  | "tsne" => some tsneAlgo
  | "tsnepso" => some tsnepsoAlgo
  | _ => none

/-- The number of configured fallbacks of each wrapper in src/dr.py:
`umap` has none (lines 36-48); `tsne` has sklearn TSNE (lines 62-76);
`phate`, `pacmap`, `spacemap`, `trimap`, `glle` and `clmds` each fall
back to UMAP once; `tsnepso` falls back to UMAP and then sklearn TSNE
(lines 233-245). -/
def configuredFallbacks : String → Nat
  | "umap" => 0
  | "tsne" => 1
  | "phate" => 1
  | "pacmap" => 1
  | "spacemap" => 1
  | "trimap" => 1
  | "tsnepso" => 2
  | "glle" => 1
  | "clmds" => 1
  | _ => 0

/-- Errors propagating out of the main DR flow. -/
inductive PipeErr where
  | dbErr (e : DbErr)
  | algErr (e : AlgErr)
  | keyError (method : String)
deriving DecidableEq

/-- The main DR flow of src/dr.py (lines 517-542): parse and
deprecated-fix the overrides, clamp the subset size to [1,500], fetch the
subset (seeded by `random_state` if supplied), run the chosen algorithm,
upsert the config, save one point per sampled row, and load the joined
payload.  The first component of the result is the store after the run:
an uncaught exception crashes the script before any further write, so on
every error path the store of that moment is returned. -/
def runPipeline (env : Env) (s : Store) (method strategy : String)
    (szArg : Int) (cfg0 : ParamList) (rt : ℚ) (configId : Option Nat)
    (ord : List EmbRow) : Store × Except PipeErr Payload :=
  let cfg := handleDeprecatedParams cfg0
  let size : Nat := (max 1 (min 500 szArg)).toNat
  match fetch_subset s strategy size (lookupParam cfg "random_state") ord with
  | Except.error e => (s, Except.error (PipeErr.dbErr e))
  | Except.ok rows =>
      match ALGOS method with
      | none => (s, Except.error (PipeErr.keyError method))
      | some algo =>
          match algo env (rows.map (fun r => r.embedding)) cfg with
          | Except.error e => (s, Except.error (PipeErr.algErr e))
          | Except.ok Y =>
              let up := upsert_config s method strategy size cfg rt configId
              let tuples := (rows.zip Y).map
                (fun rz => (rz.1.filename, rz.1.artist, rz.2.1, rz.2.2))
              match save_points up.1 up.2 tuples with
              | (s2, none) =>
                  match load_config_blob s2 up.2 with
                  | Except.ok pl => (s2, Except.ok pl)
                  | Except.error e => (s2, Except.error (PipeErr.dbErr e))
              | (_, some e) => (up.1, Except.error (PipeErr.dbErr e))

/-- The payload of a successful pipeline run, if any. -/
def payloadOf : Store × Except PipeErr Payload → Option Payload
  | (_, Except.ok pl) => some pl
  | (_, Except.error _) => none

/-- The data content of a stored point, its generated rowid dropped. -/
def stripRow (r : PointRow) : String × String × Nat × ℚ × ℚ :=
  (r.filename, r.artist, r.config_id, r.x, r.y)

/-- The stored-point content a `(filename, artist, x, y)` tuple is meant
to produce under config `cid`. -/
def tupRow (cid : Nat) (t : PtTuple) : String × String × Nat × ℚ × ℚ :=
  (t.1, t.2.1, cid, t.2.2.1, t.2.2.2)

/-- A fresh store holding ten ingested embeddings and nothing else
(the precondition of the spec scenario behind claim C1). -/
def fresh10 : Store :=
  { embeddings :=
      [⟨"f0", "a0", []⟩, ⟨"f1", "a0", []⟩, ⟨"f2", "a1", []⟩, ⟨"f3", "a1", []⟩,
       ⟨"f4", "a2", []⟩, ⟨"f5", "a2", []⟩, ⟨"f6", "a3", []⟩, ⟨"f7", "a3", []⟩,
       ⟨"f8", "a4", []⟩, ⟨"f9", "a4", []⟩],
    configs := [], points := [], now := 0 }

/-- Ten projected points returned by the installed UMAP backend in the
C1 scenario. -/
def c1points : MatOut := List.replicate 10 ((0 : ℚ), (0 : ℚ))

/-- An environment where UMAP is installed and succeeds, and nothing
else is installed. -/
def env1 : Env :=
  { umapPkg := Except.ok (fun _ _ => Except.ok c1points),
    openTsnePkg := Except.error "No module named openTSNE",
    sklearnTsnePkg := Except.error "No module named sklearn",
    tsnePsoPkg := Except.error "No module named tsne_pso" }

/-- An environment with no DR package installed at all. -/
def env0 : Env :=
  { umapPkg := Except.error "No module named umap",
    openTsnePkg := Except.error "No module named openTSNE",
    sklearnTsnePkg := Except.error "No module named sklearn",
    tsnePsoPkg := Except.error "No module named tsne_pso" }

/-- An environment where tsne_pso is unimportable while UMAP and sklearn
are installed but raise during execution: both tsnepso fallbacks fail at
runtime rather than being unavailable. -/
def env2 : Env :=
  { umapPkg := Except.ok (fun _ _ => Except.error "umap fit_transform blew up"),
    openTsnePkg := Except.error "No module named openTSNE",
    sklearnTsnePkg := Except.ok (fun _ _ => Except.error "sklearn TSNE raised ValueError"),
    tsnePsoPkg := Except.error "No module named tsne_pso" }

/-- The C1 scenario run: `--method umap --subset-strategy random
--subset-size 10 --param n_neighbors=15` on a fresh store, the random
ordering being the table order. -/
def c1run : Store × Except PipeErr Payload :=
  runPipeline env1 fresh10 "umap" "random" 10 [("n_neighbors", Value.int 15)]
    (6 / 5) none fresh10.embeddings

/-- A store holding one embedding, one config (id 1) and one point of
that config: the prior state overwritten in the C4/C5 witnesses. -/
def sOld : Store :=
  { embeddings := [⟨"f1", "a", []⟩],
    configs := [⟨1, "umap", "random", 10, "old", (1 : ℚ), 3⟩],
    points := [⟨1, "f1", "a", 1, 0, 0⟩],
    now := 7 }

/-- A store for the C6 witness: config 7 exists but the filename
"ghost" is not among the embeddings. -/
def sW6 : Store :=
  { embeddings := [⟨"f1", "a", []⟩],
    configs := [⟨7, "umap", "random", 10, "pj", (1 : ℚ), 0⟩],
    points := [], now := 0 }

/-- A two-embedding store for the C9 witness. -/
def sW9 : Store :=
  { embeddings := [⟨"f1", "a", []⟩, ⟨"f2", "b", []⟩],
    configs := [], points := [], now := 0 }

/-- A three-embedding store over two artists for the C10 witness. -/
def sW10 : Store :=
  { embeddings := [⟨"f2", "a", []⟩, ⟨"f1", "a", []⟩, ⟨"f3", "b", []⟩],
    configs := [], points := [], now := 0 }

/-- Two strings with the same character data are equal. -/
theorem string_data_inj {a b : String} (h : a.data = b.data) : a = b := by
  cases a
  cases b
  exact congrArg String.mk h

/-- A `keyLE`-sorted parameter list with duplicate-free keys is strictly
sorted by key. -/
theorem sortedLT_of_nodupKeys {l : ParamList} (hs : List.Sorted keyLE l)
    (hn : (l.map Prod.fst).Nodup) : List.Sorted keyLT l := by
  have hpw : l.Pairwise (fun a b => a.1 ≠ b.1) := List.pairwise_map.mp hn
  exact (hs.and hpw).imp
    (fun h => lt_of_le_of_ne h.1 (fun hd => h.2 (string_data_inj hd)))

/-- Two parameter mappings with the same entries (and duplicate-free
keys) have the same canonical form. -/
theorem canonicalize_eq_of_perm {p q : ParamList} (hpq : p.Perm q)
    (hnd : (p.map Prod.fst).Nodup) : canonicalize p = canonicalize q := by
  have hcp : (canonicalize p).Perm p := List.perm_insertionSort keyLE p
  have hcq : (canonicalize q).Perm q := List.perm_insertionSort keyLE q
  have hpr : (canonicalize p).Perm (canonicalize q) := hcp.trans (hpq.trans hcq.symm)
  have hnp : ((canonicalize p).map Prod.fst).Nodup := ((hcp.map Prod.fst).nodup_iff).mpr hnd
  have hnq : ((canonicalize q).map Prod.fst).Nodup :=
    (((hpr.symm).map Prod.fst).nodup_iff).mpr hnp
  exact List.eq_of_perm_of_sorted hpr
    (sortedLT_of_nodupKeys (List.sorted_insertionSort keyLE p) hnp)
    (sortedLT_of_nodupKeys (List.sorted_insertionSort keyLE q) hnq)

/-- Claim C3: parameter canonicalization is idempotent and
order-insensitive — `canonicalize (canonicalize p) = canonicalize p`, and
two mappings with the same key/value set (in any insertion order, keys
duplicate-free as in a Python dict) produce byte-identical
`json.dumps(..., sort_keys=True)` encodings. -/
theorem c3_canonicalize_idem_order_insensitive (p q : ParamList)
    (hpq : p.Perm q) (hnd : (p.map Prod.fst).Nodup) :
    canonicalize (canonicalize p) = canonicalize p ∧
      encodeParams p = encodeParams q := by
  constructor
  · exact (List.sorted_insertionSort keyLE p).insertionSort_eq
  · unfold encodeParams
    rw [canonicalize_eq_of_perm hpq hnd]

/-- Witness for C3 at a concrete pair of mappings differing only in
insertion order. -/
theorem c3_canonicalize_witness :
    canonicalize (canonicalize [("b", Value.int 1), ("a", Value.int 2)]) =
        canonicalize [("b", Value.int 1), ("a", Value.int 2)] ∧
      encodeParams [("b", Value.int 1), ("a", Value.int 2)] =
        encodeParams [("a", Value.int 2), ("b", Value.int 1)] :=
  c3_canonicalize_idem_order_insensitive _ _ (List.Perm.swap _ _ _) (by decide)

/-- Filtering for a config id after all rows with that id were removed
leaves nothing. -/
theorem filter_ne_then_eq_nil (pts : List PointRow) (cid : Nat) :
    (pts.filter (fun q => !(q.config_id == cid))).filter
      (fun q => q.config_id == cid) = [] := by
  rw [List.filter_eq_nil_iff]
  intro a ha
  have h2 := (List.mem_filter.mp ha).2
  simp only [Bool.not_eq_true'] at h2
  simp [h2]

/-- After `REPLACE INTO configs`, looking up the replaced id finds
exactly the new row. -/
theorem find?_after_replace (s : Store) (cid : Nat) (row : ConfigRow)
    (hrow : row.config_id = cid) :
    ((s.configs.filter (fun r => !(r.config_id == cid))) ++ [row]).find?
        (fun r => r.config_id == cid) = some row := by
  rw [List.find?_append]
  have h1 : (s.configs.filter (fun r => !(r.config_id == cid))).find?
      (fun r => r.config_id == cid) = none := by
    rw [List.find?_eq_none]
    intro x hx
    have h2 := (List.mem_filter.mp hx).2
    simp only [Bool.not_eq_true'] at h2
    simp [h2]
  rw [h1]
  simp [hrow]

/-- Claim C4: for every existing config id and every tuple of new field
values, `upsert(config_id, new_values)` followed by `load(config_id)`
returns exactly the new values — the whole row is replaced (including
`created_at`, reset to the current time) and no field of the prior row
survives; the cascade has also purged the old points, so the payload
joins the new row with an empty point list. -/
theorem c4_upsert_then_load_exact (s : Store) (cid : Nat) (m st : String)
    (sz : Nat) (p : ParamList) (rt : ℚ)
    (hex : s.configs.any (fun r => r.config_id == cid) = true) :
    load_config_blob (upsert_config s m st sz p rt (some cid)).1 cid =
      Except.ok ⟨⟨cid, m, st, sz, encodeParams p, rt, s.now⟩, []⟩ := by
  unfold upsert_config load_config_blob
  simp only [hex, if_true]
  rw [find?_after_replace s cid ⟨cid, m, st, sz, encodeParams p, rt, s.now⟩ rfl]
  rw [filter_ne_then_eq_nil s.points cid]

/-- Witness for C4: overwriting config 1 of `sOld` and reading it back
yields exactly the new field values. -/
theorem c4_upsert_witness :
    load_config_blob (upsert_config sOld "tsne" "artist_first5" 5
        [("perplexity", Value.int 30)] (2 : ℚ) (some 1)).1 1 =
      Except.ok ⟨⟨1, "tsne", "artist_first5", 5,
        encodeParams [("perplexity", Value.int 30)], 2, 7⟩, []⟩ :=
  c4_upsert_then_load_exact sOld 1 "tsne" "artist_first5" 5
    [("perplexity", Value.int 30)] 2 (by decide)

/-- Claim C5: upserting an existing config id deletes every previously
saved projection point of that id — the REPLACE removes the old config
row and, with foreign keys ON, the ON DELETE CASCADE purges its points,
so the store after the overwrite holds no point referencing that id. -/
theorem c5_replace_cascade_purges_points (s : Store) (m st : String)
    (sz : Nat) (p : ParamList) (rt : ℚ) (cid : Nat)
    (hex : s.configs.any (fun r => r.config_id == cid) = true) :
    (upsert_config s m st sz p rt (some cid)).1.points.filter
      (fun q => q.config_id == cid) = [] := by
  unfold upsert_config
  simp only [hex, if_true]
  exact filter_ne_then_eq_nil s.points cid

/-- Witness for C5: `sOld` holds a point of config 1; after the
overwrite no point of config 1 remains. -/
theorem c5_cascade_witness :
    (upsert_config sOld "tsne" "artist_first5" 5 [] (2 : ℚ) (some 1)).1.points.filter
      (fun q => q.config_id == 1) = [] :=
  c5_replace_cascade_purges_points sOld "tsne" "artist_first5" 5 [] 2 1 (by decide)

/-- `save_points` commits the transaction when every insert succeeded and
rolls back to the original store otherwise. -/
theorem save_points_eq (s : Store) (cid : Nat) (pts : List PtTuple) :
    save_points s cid pts =
      if (save_points_go cid s pts).2 = none
      then ((save_points_go cid s pts).1, none)
      else (s, (save_points_go cid s pts).2) := by
  unfold save_points
  cases hgo : save_points_go cid s pts with
  | mk s2 oe =>
      cases oe with
      | none => simp
      | some e => simp

/-- A fully successful `executemany` appends exactly the batch, in
order, to the in-transaction store. -/
theorem save_points_go_ok (cid : Nat) (ts : List PtTuple) :
    ∀ cur : Store, (save_points_go cid cur ts).2 = none →
      (save_points_go cid cur ts).1.points.map stripRow =
        cur.points.map stripRow ++ ts.map (tupRow cid) := by
  induction ts with
  | nil => intro cur _; simp [save_points_go]
  | cons t ts ih =>
      intro cur h
      cases hins : insert_point cur cid t with
      | error e =>
          simp only [save_points_go, hins] at h
          exact absurd h (by simp)
      | ok next =>
          simp only [save_points_go, hins] at h ⊢
          have hnext := ih next h
          rw [hnext]
          unfold insert_point at hins
          by_cases hc : (fileKnown cur t.1 && configKnown cur cid) = true
          · rw [if_pos hc] at hins
            simp only [Except.ok.injEq] at hins
            rw [← hins]
            simp [stripRow, tupRow]
          · rw [if_neg hc] at hins
            cases hins

/-- If some tuple of the batch violates a foreign key against the state
at the start of the transaction, the `executemany` fails. -/
theorem save_points_go_err (cid : Nat) (ts : List PtTuple) :
    ∀ cur : Store,
      (∃ t ∈ ts, fileKnown cur t.1 = false ∨ configKnown cur cid = false) →
      (save_points_go cid cur ts).2 ≠ none := by
  induction ts with
  | nil =>
      intro cur h
      rcases h with ⟨t, ht, _⟩
      cases ht
  | cons t ts ih =>
      intro cur h
      cases hins : insert_point cur cid t with
      | error e => simp [save_points_go, hins]
      | ok next =>
          have hc : (fileKnown cur t.1 && configKnown cur cid) = true := by
            by_contra hc
            unfold insert_point at hins
            rw [if_neg hc] at hins
            cases hins
          have hnext : next = { cur with
              points := cur.points ++
                [⟨nextPointId cur, t.1, t.2.1, cid, t.2.2.1, t.2.2.2⟩] } := by
            unfold insert_point at hins
            rw [if_pos hc] at hins
            simp only [Except.ok.injEq] at hins
            exact hins.symm
          have hemb : next.embeddings = cur.embeddings := by rw [hnext]
          have hcfg : next.configs = cur.configs := by rw [hnext]
          rcases h with ⟨u, hu, hbad⟩
          rcases List.mem_cons.mp hu with rfl | hu2
          · exfalso
            rw [Bool.and_eq_true] at hc
            rcases hbad with hb | hb
            · rw [hc.1] at hb; cases hb
            · rw [hc.2] at hb; cases hb
          · have hrec : (save_points_go cid next ts).2 ≠ none := by
              apply ih next
              refine ⟨u, hu2, ?_⟩
              rcases hbad with hb | hb
              · left
                unfold fileKnown
                rw [hemb]
                exact hb
              · right
                unfold configKnown
                rw [hcfg]
                exact hb
            simpa [save_points_go, hins] using hrec

/-- Claim C6: `save(config_id, points)` is atomic — on success every
tuple of the batch is persisted in order, on any failure the store is
exactly the prior state; and a batch containing a tuple whose filename
or config id is unknown in the store always fails. -/
theorem c6_save_points_atomic (s : Store) (cid : Nat) (pts : List PtTuple) :
    ((save_points s cid pts).2 = none →
      (save_points s cid pts).1.points.map stripRow =
        s.points.map stripRow ++ pts.map (tupRow cid)) ∧
    (∀ e, (save_points s cid pts).2 = some e → (save_points s cid pts).1 = s) ∧
    ((∃ t ∈ pts, fileKnown s t.1 = false ∨ configKnown s cid = false) →
      (save_points s cid pts).2 ≠ none) := by
  refine ⟨?_, ?_, ?_⟩
  · intro h
    rw [save_points_eq] at h ⊢
    by_cases hgo : (save_points_go cid s pts).2 = none
    · rw [if_pos hgo]
      exact save_points_go_ok cid pts s hgo
    · rw [if_neg hgo] at h
      exact absurd h hgo
  · intro e h
    rw [save_points_eq] at h ⊢
    by_cases hgo : (save_points_go cid s pts).2 = none
    · rw [if_pos hgo] at h
      cases h
    · rw [if_neg hgo]
  · intro hbad
    rw [save_points_eq]
    by_cases hgo : (save_points_go cid s pts).2 = none
    · exact absurd hgo (save_points_go_err cid pts s hbad)
    · rw [if_neg hgo]
      exact hgo

/-- Witness for C6: a batch referencing the unknown filename "ghost"
fails and leaves the store untouched. -/
theorem c6_save_points_witness :
    (save_points sW6 7 [("ghost", "a", 0, 0)]).2 ≠ none ∧
      (save_points sW6 7 [("ghost", "a", 0, 0)]).1 = sW6 :=
  ⟨(c6_save_points_atomic sW6 7 [("ghost", "a", 0, 0)]).2.2
      ⟨("ghost", "a", 0, 0), by decide, Or.inl (by decide)⟩,
   (c6_save_points_atomic sW6 7 [("ghost", "a", 0, 0)]).2.1
      (DbErr.integrityError "FOREIGN KEY constraint failed") (by decide)⟩

/-- Claim C7 (code bug in src/db.py lines 110-111): whenever a seed is
supplied to the random strategy, `fetch_subset` executes
`SELECT random(?)`; SQLite\x27s built-in `random()` takes no arguments, so
the call raises `sqlite3.OperationalError` instead of performing a
reproducible draw — the sample never succeeds with a seed. -/
theorem c7_seeded_random_always_raises (s : Store) (size : Nat) (v : Value)
    (ord : List EmbRow) :
    fetch_subset s "random" size (some v) ord =
      Except.error
        (DbErr.operationalError "wrong number of arguments to function random()") := by
  unfold fetch_subset
  rw [if_neg (by decide), if_pos rfl]

/-- Claim C8: any strategy other than "random" and "artist_first5" fails
with `ValueError` (the spec\x27s ValidationError) whose value is
independent of the store contents — raised before any embedding row is
read — and the pipeline performs no storage write: the store it returns
is the input store. -/
theorem c8_unknown_strategy_fails_early (env : Env) (s : Store)
    (m strategy : String) (size : Nat) (seed : Option Value)
    (ord : List EmbRow) (szArg : Int) (cfg : ParamList) (rt : ℚ)
    (cid : Option Nat)
    (h1 : strategy ≠ "artist_first5") (h2 : strategy ≠ "random") :
    fetch_subset s strategy size seed ord =
        Except.error (DbErr.valueError ("Unknown subset strategy: " ++ strategy)) ∧
      (runPipeline env s m strategy szArg cfg rt cid ord).1 = s ∧
      payloadOf (runPipeline env s m strategy szArg cfg rt cid ord) = none := by
  have hf : ∀ (sz : Nat) (sd : Option Value), fetch_subset s strategy sz sd ord =
      Except.error (DbErr.valueError ("Unknown subset strategy: " ++ strategy)) := by
    intro sz sd
    unfold fetch_subset
    rw [if_neg h1, if_neg h2]
  refine ⟨hf size seed, ?_, ?_⟩
  · unfold runPipeline
    simp only [hf]
  · unfold runPipeline
    simp only [hf]
    rfl

/-- Witness for C8 at the spec scenario `sample("bogus_strategy", 10)`. -/
theorem c8_unknown_strategy_witness :
    fetch_subset sW9 "bogus_strategy" 10 none [] =
        Except.error
          (DbErr.valueError ("Unknown subset strategy: " ++ "bogus_strategy")) ∧
      (runPipeline env0 sW9 "umap" "bogus_strategy" 10 [] 0 none []).1 = sW9 ∧
      payloadOf (runPipeline env0 sW9 "umap" "bogus_strategy" 10 [] 0 none []) = none :=
  c8_unknown_strategy_fails_early env0 sW9 "umap" "bogus_strategy" 10 none []
    10 [] 0 none (by decide) (by decide)

/-- A successful `np.vstack` step passes its rows through unchanged. -/
theorem vstackRows_ok {l rows : List EmbRow} (h : vstackRows l = Except.ok rows) :
    rows = l := by
  unfold vstackRows at h
  by_cases he : l.isEmpty
  · rw [if_pos he] at h
    cases h
  · rw [if_neg he] at h
    exact (Except.ok.inj h).symm

/-- Claim C9: for every size in [1,500] and both supported strategies, a
successful sample returns at most `size` rows and never more rows than
there are embeddings in the store. -/
theorem c9_sample_size_bound (s : Store) (strategy : String) (size : Nat)
    (seed : Option Value) (ord : List EmbRow) (rows : List EmbRow)
    (hsz : 1 ≤ size ∧ size ≤ 500)
    (hstrat : strategy = "random" ∨ strategy = "artist_first5")
    (hord : ord.Perm s.embeddings)
    (hok : fetch_subset s strategy size seed ord = Except.ok rows) :
    rows.length ≤ size ∧ rows.length ≤ s.embeddings.length := by
  rcases hstrat with rfl | rfl
  · unfold fetch_subset at hok
    rw [if_neg (by decide), if_pos rfl] at hok
    cases seed with
    | some v => cases hok
    | none =>
        have hrows := vstackRows_ok hok
        subst hrows
        constructor
        · rw [List.length_take]
          exact min_le_left _ _
        · rw [List.length_take, ← hord.length_eq]
          exact min_le_right _ _
  · unfold fetch_subset at hok
    rw [if_pos rfl] at hok
    have hrows := vstackRows_ok hok
    subst hrows
    constructor
    · rw [List.length_take]
      exact min_le_left _ _
    · rw [List.length_take]
      refine le_trans (min_le_right _ _) ?_
      unfold rankedRows
      refine le_trans (List.length_filter_le _ _) ?_
      rw [List.length_insertionSort]

/-- Witness for C9: a random draw of size 1 from a two-embedding
store. -/
theorem c9_sample_size_witness :
    ([⟨"f1", "a", []⟩] : List EmbRow).length ≤ 1 ∧
      ([⟨"f1", "a", []⟩] : List EmbRow).length ≤ sW9.embeddings.length :=
  c9_sample_size_bound sW9 "random" 1 none sW9.embeddings [⟨"f1", "a", []⟩]
    (by decide) (Or.inl rfl) (List.Perm.refl _) (by rfl)

/-- Strict monotonicity of `countP` given one element counted by `q` but
not by `p`, when `p` implies `q` on the list. -/
theorem countP_lt_of_witness {α : Type} {p q : α → Bool} {l : List α} {a : α}
    (ha : a ∈ l) (hpa : p a = false) (hqa : q a = true)
    (hpq : ∀ x ∈ l, p x = true → q x = true) :
    l.countP p < l.countP q := by
  induction l with
  | nil => cases ha
  | cons b lT ih =>
      rcases List.mem_cons.mp ha with rfl | ha2
      · have hmono : lT.countP p ≤ lT.countP q :=
          List.countP_mono_left (fun x hx => hpq x (List.mem_cons_of_mem _ hx))
        simp only [List.countP_cons, hpa, hqa]
        simp only [Bool.false_eq_true, if_false, if_true]
        omega
      · have ihh : lT.countP p < lT.countP q :=
          ih ha2 (fun x hx h => hpq x (List.mem_cons_of_mem _ hx) h)
        have hb : p b = true → q b = true := hpq b (List.mem_cons_self b lT)
        simp only [List.countP_cons]
        by_cases hpb : p b = true
        · simp only [hpb, hb hpb, if_true]
          omega
        · have hpb2 : p b = false := by revert hpb; cases p b <;> simp
          simp only [hpb2, Bool.false_eq_true, if_false]
          by_cases hqb : q b = true
          · simp only [hqb, if_true]
            omega
          · have hqb2 : q b = false := by revert hqb; cases q b <;> simp
            simp only [hqb2, Bool.false_eq_true, if_false]
            omega

/-- The per-artist window rank `rn` is strictly monotone in filename
among rows of one artist (the distinguished row being in the table). -/
theorem rnOf_lt_of_lt {l : List EmbRow} {r1 r2 : EmbRow} (h1 : r1 ∈ l)
    (hart : r1.artist = r2.artist) (hfn : r1.filename.data < r2.filename.data) :
    rnOf l r1 < rnOf l r2 := by
  unfold rnOf sameArtistBefore
  rw [← List.countP_eq_length_filter, ← List.countP_eq_length_filter]
  apply Nat.add_lt_add_left
  apply countP_lt_of_witness h1
  · simp
  · simp only [decide_eq_true_eq]
    exact ⟨hart, hfn⟩
  · intro x hx h
    simp only [decide_eq_true_eq] at h ⊢
    exact ⟨h.1.trans hart, h.2.trans hfn⟩

/-- A duplicate-free list of naturals all lying in [1,5] has at most
five elements. -/
theorem length_le_five_of_nodup {ns : List ℕ} (hnd : ns.Nodup)
    (hmem : ∀ n ∈ ns, 1 ≤ n ∧ n ≤ 5) : ns.length ≤ 5 := by
  have hsub : ns.toFinset ⊆ Finset.Icc 1 5 := by
    intro n hn
    rw [List.mem_toFinset] at hn
    rw [Finset.mem_Icc]
    exact hmem n hn
  have hcard := Finset.card_le_card hsub
  rw [List.toFinset_card_of_nodup hnd] at hcard
  simpa using hcard

/-- Claim C10: under the artist_first5 strategy, every artist
represented in a successful sample contributes at most 5 rows, provided
the store satisfies the filename PRIMARY KEY constraint. -/
theorem c10_artist_first5_at_most_five (s : Store) (size : Nat)
    (seed : Option Value) (ord : List EmbRow) (rows : List EmbRow) (a : String)
    (hnd : (s.embeddings.map (fun r => r.filename)).Nodup)
    (hok : fetch_subset s "artist_first5" size seed ord = Except.ok rows) :
    (rows.filter (fun r => decide (r.artist = a))).length ≤ 5 := by
  unfold fetch_subset at hok
  rw [if_pos rfl] at hok
  have hrows := vstackRows_ok hok
  subst hrows
  have hsubl : (((rankedRows s).take size).filter (fun r => decide (r.artist = a))).length ≤
      ((rankedRows s).filter (fun r => decide (r.artist = a))).length :=
    ((List.take_sublist _ _).filter _).length_le
  refine le_trans hsubl ?_
  have hLperm : (List.insertionSort artistFileLE s.embeddings).Perm s.embeddings :=
    List.perm_insertionSort _ _
  have hinj : ∀ x ∈ s.embeddings, ∀ y ∈ s.embeddings, x.filename = y.filename → x = y :=
    List.inj_on_of_nodup_map hnd
  have hmemG : ∀ r ∈ (rankedRows s).filter (fun r => decide (r.artist = a)),
      r ∈ s.embeddings ∧ r.artist = a ∧ rnOf s.embeddings r ≤ 5 := by
    intro r hr
    have h1 := List.mem_filter.mp hr
    have h2 := List.mem_filter.mp h1.1
    refine ⟨hLperm.subset h2.1, ?_, ?_⟩
    · exact decide_eq_true_eq.mp h1.2
    · exact decide_eq_true_eq.mp h2.2
  have hGnodup : ((rankedRows s).filter (fun r => decide (r.artist = a))).Nodup := by
    have hlnd : s.embeddings.Nodup := hnd.of_map
    have hLnd : (List.insertionSort artistFileLE s.embeddings).Nodup :=
      hLperm.nodup_iff.mpr hlnd
    exact (hLnd.filter _).filter _
  have hmap : (((rankedRows s).filter (fun r => decide (r.artist = a))).map
      (rnOf s.embeddings)).Nodup := by
    refine List.Nodup.map_on ?_ hGnodup
    intro x hx y hy hrn
    have hxm := hmemG x hx
    have hym := hmemG y hy
    rcases lt_trichotomy x.filename.data y.filename.data with hlt | heq | hgt
    · exact absurd hrn
        (Nat.ne_of_lt (rnOf_lt_of_lt hxm.1 (hxm.2.1.trans hym.2.1.symm) hlt))
    · exact hinj x hxm.1 y hym.1 (string_data_inj heq)
    · exact absurd hrn.symm
        (Nat.ne_of_lt (rnOf_lt_of_lt hym.1 (hym.2.1.trans hxm.2.1.symm) hgt))
  have hlen : (((rankedRows s).filter (fun r => decide (r.artist = a))).map
      (rnOf s.embeddings)).length ≤ 5 := by
    refine length_le_five_of_nodup hmap ?_
    intro n hn
    rcases List.mem_map.mp hn with ⟨r, hr, rfl⟩
    refine ⟨?_, (hmemG r hr).2.2⟩
    unfold rnOf
    omega
  rw [List.length_map] at hlen
  exact hlen

/-- Witness for C10: an artist_first5 sample from a three-embedding
store over two artists. -/
theorem c10_artist_first5_witness :
    (([⟨"f1", "a", []⟩, ⟨"f2", "a", []⟩, ⟨"f3", "b", []⟩] : List EmbRow).filter
      (fun r => decide (r.artist = "a"))).length ≤ 5 :=
  c10_artist_first5_at_most_five sW10 3 none [] _ "a" (by decide) (by rfl)

/-- When tsne_pso is unimportable, the UMAP fallback fails with any
error `eU` (an ImportError if unavailable, any exception if installed
but raising) and the sklearn attempt fails with any cause `mS`
(likewise), the tsnepso wrapper raises its terminal ImportError carrying
exactly the two fallback causes `str(e)` and `str(e2)` in order. -/
theorem tsnepsoAlgo_exhausted {env : Env} {mP : String} {eU : AlgErr}
    {mS : String} {cfg : ParamList}
    (hP : env.tsnePsoPkg = Except.error mP)
    (hU : ∀ X : MatIn, umapAlgo env X cfg = Except.error eU)
    (hS : ∀ X : MatIn, tsnepsoSklearnAttempt env X cfg = Except.error mS) :
    ∀ X : MatIn,
      tsnepsoAlgo env X cfg =
        Except.error (AlgErr.importError (tsnepsoFailMsg (algErrStr eU) mS)
          [algErrStr eU, mS]) := by
  intro X
  unfold tsnepsoAlgo
  rw [hP, hU X, hS X]

/-- An algorithm failure aborts the run before any write: the store
comes back unchanged and no payload is produced. -/
theorem runPipeline_unchanged_of_algo_err (env : Env) (s : Store)
    (method strategy : String) (szArg : Int) (cfg : ParamList) (rt : ℚ)
    (cid : Option Nat) (ord : List EmbRow)
    (algo : Env → MatIn → ParamList → Except AlgErr MatOut) (e : AlgErr)
    (hA : ALGOS method = some algo)
    (herr : ∀ X : MatIn, algo env X (handleDeprecatedParams cfg) = Except.error e) :
    (runPipeline env s method strategy szArg cfg rt cid ord).1 = s ∧
      payloadOf (runPipeline env s method strategy szArg cfg rt cid ord) = none := by
  cases hf : fetch_subset s strategy (max 1 (min 500 szArg)).toNat
      (lookupParam (handleDeprecatedParams cfg) "random_state") ord with
  | error err =>
      refine ⟨?_, ?_⟩ <;> simp [runPipeline, hf, payloadOf]
  | ok rows =>
      refine ⟨?_, ?_⟩ <;> simp [runPipeline, hf, hA, herr, payloadOf]

/-- Claim C2 (amended): for tsnepso — whose configured fallbacks are
UMAP then sklearn TSNE, K = 2 — when the primary import fails and both
fallbacks fail or are unavailable (the UMAP fallback failing with any
error `eU`, the sklearn attempt failing with any cause `mS`, each
covering both the unavailable-package and the installed-but-raising
case), execute raises the terminal ImportError carrying exactly the two
fallback causes in order (the primary\x27s own failed import is not among
them), and no points are persisted for the attempt: the pipeline
returns the store unchanged with no payload.  (The count-equals-K
guarantee is specific to tsnepso; see the counterexample for tsne.) -/
theorem c2_tsnepso_exhaustion_two_causes (env : Env) (s : Store)
    (strategy : String) (szArg : Int) (cfg : ParamList) (rt : ℚ)
    (cid : Option Nat) (ord : List EmbRow) (mP : String) (eU : AlgErr)
    (mS : String)
    (hP : env.tsnePsoPkg = Except.error mP)
    (hU : ∀ X : MatIn, umapAlgo env X (handleDeprecatedParams cfg) = Except.error eU)
    (hS : ∀ X : MatIn,
      tsnepsoSklearnAttempt env X (handleDeprecatedParams cfg) = Except.error mS) :
    (∀ X : MatIn, tsnepsoAlgo env X (handleDeprecatedParams cfg) =
        Except.error (AlgErr.importError (tsnepsoFailMsg (algErrStr eU) mS)
          [algErrStr eU, mS])) ∧
      [algErrStr eU, mS].length = configuredFallbacks "tsnepso" ∧
      (runPipeline env s "tsnepso" strategy szArg cfg rt cid ord).1 = s ∧
      payloadOf (runPipeline env s "tsnepso" strategy szArg cfg rt cid ord) = none := by
  have halg := tsnepsoAlgo_exhausted hP hU hS
  refine ⟨halg, rfl, ?_⟩
  exact runPipeline_unchanged_of_algo_err env s "tsnepso" strategy szArg cfg rt
    cid ord tsnepsoAlgo _ rfl halg

/-- Witness for the amended C2 in an environment where both fallbacks
are installed but raise during execution (the runtime-failure side of
"fail or are unavailable"): the causes are the two runtime exception
messages, in order. -/
theorem c2_tsnepso_exhaustion_witness :
    tsnepsoAlgo env2 [] (handleDeprecatedParams []) =
        Except.error (AlgErr.importError
          (tsnepsoFailMsg "umap fit_transform blew up" "sklearn TSNE raised ValueError")
          ["umap fit_transform blew up", "sklearn TSNE raised ValueError"]) ∧
      (["umap fit_transform blew up", "sklearn TSNE raised ValueError"] : List String).length =
        configuredFallbacks "tsnepso" ∧
      (runPipeline env2 sW9 "tsnepso" "random" 10 [] 0 none sW9.embeddings).1 = sW9 ∧
      payloadOf (runPipeline env2 sW9 "tsnepso" "random" 10 [] 0 none sW9.embeddings) = none := by
  obtain ⟨h1, h2, h3, h4⟩ :=
    c2_tsnepso_exhaustion_two_causes env2 sW9 "random" 10 [] 0 none
      sW9.embeddings "No module named tsne_pso"
      (AlgErr.runtimeError "umap fit_transform blew up")
      "sklearn TSNE raised ValueError" rfl (fun _ => rfl) (fun _ => rfl)
  exact ⟨h1 [], h2, h3, h4⟩

/-- Claim C2 (counterexample): the claim fails for tsne, which has
K = 1 configured fallback (sklearn TSNE) yet, with openTSNE and sklearn
both unavailable, raises a terminal ImportError carrying 0 causes. -/
theorem c2_tsne_causes_counterexample :
    tsneAlgo env0 [] [] =
        Except.error (AlgErr.importError
          "Neither openTSNE nor sklearn\x27s TSNE are installed. Please install one of them."
          []) ∧
      configuredFallbacks "tsne" = 1 ∧
      ([] : List String).length ≠ configuredFallbacks "tsne" :=
  ⟨rfl, rfl, by decide⟩

/-- Claim C1 (counterexample): in the spec scenario the persisted config
params are exactly the supplied mapping and do not contain the method
default — `n_components = 2` is set only on the local kwargs copy inside
the umap wrapper (src/dr.py lines 40-41) and is never written back into
the `cfg` that `upsert_config` persists (src/dr.py line 535), so the
loaded params are the encoding of the single-entry mapping
n_neighbors=15, not of the two-entry mapping with n_components=2
claimed by the spec. -/
theorem c1_default_not_persisted_counterexample :
    (payloadOf c1run).map (fun pl => pl.config.params_json) =
        some (encodeParams [("n_neighbors", Value.int 15)]) ∧
      (payloadOf c1run).map (fun pl => pl.config.params_json) ≠
        some (encodeParams
          [("n_neighbors", Value.int 15), ("n_components", Value.int 2)]) := by
  constructor
  · rfl
  · decide

/-- Claim C1 (amended): on a fresh store, creating a umap/random/size-10
config with params n_neighbors=15 and runtime 1.2 yields
`config_id = 1`, and after saving the ten projected points `load(1)`
returns a payload whose config params are exactly the supplied
single-entry mapping n_neighbors=15 (method defaults are applied only to
the in-memory copy passed to the algorithm and are not persisted) and
whose points list has length 10. -/
theorem c1_scenario_amended :
    (payloadOf c1run).map (fun pl => pl.config.config_id) = some 1 ∧
      (payloadOf c1run).map (fun pl => pl.config.params_json) =
        some (encodeParams [("n_neighbors", Value.int 15)]) ∧
      (payloadOf c1run).map (fun pl => pl.points.length) = some 10 := by
  refine ⟨rfl, rfl, rfl⟩
